import Mathlib

/-!
# mshadow/half2.h : the packed half-precision pair `half2_t`

A shallow embedding of `src/mshadow/half2.h`.

The header compiles exactly one of two bodies for every member, selected by
`MSHADOW_CUDA_HALF2`:

* the fallback body (`#else` branches): `half_t half_t2[2]`, every operator is
  two scalar `half_t` operations, one per lane;
* the accelerated body (`#if MSHADOW_CUDA_HALF2` branches): `half2 half2_`,
  every operator is one CUDA intrinsic on the native value.

The scalar type `half_t` (mshadow/half.h) and the CUDA intrinsics
(cuda_fp16.h) are not part of this header.  They enter the embedding as
parameters: the development below holds for every implementation of them.

Member functions that take `this` or a `const half2_t&` are embedded over an
explicit store of objects, so that aliasing between the receiver and the
argument, and the absence of writes outside the receiver, are statements
about the code and not artefacts of a purely functional reading.
-/

namespace mshadow
namespace half

/-! ## External primitives, taken as parameters -/

/-- Operations of the scalar type `half_t` that half2.h uses: the conversion
`(half_t)a` of an `int`, unary minus, the four binary operators and `==`.
The carrier `H` is the set of values a `half_t` object can hold. -/
structure HalfScalar (H : Type) where
  /-- the conversion `(half_t)a` of an `int` -/
  ofInt : Int → H
  /-- scalar unary minus -/
  neg : H → H
  /-- scalar `+` -/
  add : H → H → H
  /-- scalar `-` -/
  sub : H → H → H
  /-- scalar `*` -/
  mul : H → H → H
  /-- scalar `/` -/
  div : H → H → H
  /-- scalar `==` -/
  eq : H → H → Bool

/-- CUDA intrinsics that half2.h uses in the accelerated body.  `N` is the
native type `half2`, `S` the native scalar `__half`. -/
structure CudaIntrinsics (N S : Type) where
  /-- the intrinsic `__int2half_rz` -/
  int2half_rz : Int → S
  /-- the intrinsic `__half2half2` -/
  half2half2 : S → N
  /-- the intrinsic `__hneg2` -/
  hneg2 : N → N
  /-- the intrinsic `__hadd2` -/
  hadd2 : N → N → N
  /-- the intrinsic `__hsub2` -/
  hsub2 : N → N → N
  /-- the intrinsic `__hmul2` -/
  hmul2 : N → N → N
  /-- the intrinsic `h2div` -/
  h2div : N → N → N
  /-- the intrinsic `__hbeq2` -/
  hbeq2 : N → N → Bool

/-- The four binary operators for which half2.h defines a free operator and,
through `MSHADOW_HALF2_ASSIGNOP`, a compound assignment. -/
inductive BinOp where
  | add
  | sub
  | mul
  | div
deriving DecidableEq, Repr

/-- The scalar operator of `half_t` that corresponds to a `BinOp`. -/
def HalfScalar.binop {H : Type} (S : HalfScalar H) : BinOp → H → H → H
  | .add => S.add
  | .sub => S.sub
  | .mul => S.mul
  | .div => S.div

/-! ## Objects, references and the store -/

/-- Address of an object. -/
abbrev Addr := Nat

/-- A store maps each address to the value of the object that lives there. -/
def Store (α : Type) := Addr → α

/-- Overwrite the object at `p`. -/
def Store.write {α : Type} (s : Store α) (p : Addr) (v : α) : Store α :=
  fun q => if q = p then v else s q

/-- What a `const T&` parameter is bound to: an object of the store, or a
temporary that no other name refers to. -/
inductive ConstRef (α : Type) where
  | obj (p : Addr)
  | tmp (v : α)

/-- Read through a `const T&` in store `s`. -/
def ConstRef.get {α : Type} (s : Store α) : ConstRef α → α
  | .obj p => s p
  | .tmp v => v

/-! ## Fallback body (`MSHADOW_CUDA_HALF2 == 0`) -/

namespace fallback

/-- The class `half2_t` with member `half_t half_t2[2]`: `half_t2_0` is
`half_t2[0]` (lane 0), `half_t2_1` is `half_t2[1]` (lane 1). -/
structure half2_t (H : Type) where
  half_t2_0 : H
  half_t2_1 : H
deriving DecidableEq, Repr

variable {H : Type}

/-- The constructor `half2_t(half_t a, half_t b)`. -/
def ctor_half_half (a b : H) : half2_t H :=
  { half_t2_0 := a, half_t2_1 := b }

/-- The constructor `half2_t(int a)`.  The values of a C++ `int` are integers;
no arithmetic is done on `a`, it is only handed to the conversion. -/
def ctor_int (S : HalfScalar H) (a : Int) : half2_t H :=
  { half_t2_0 := S.ofInt a, half_t2_1 := S.ofInt a }

/-- The implicit copy constructor: member-wise copy of the array. -/
def ctor_copy (a : half2_t H) : half2_t H :=
  { half_t2_0 := a.half_t2_0, half_t2_1 := a.half_t2_1 }

/-- The free `operator+(half2_t a, half2_t b)`. -/
def op_add (S : HalfScalar H) (a b : half2_t H) : half2_t H :=
  ctor_half_half (S.add a.half_t2_0 b.half_t2_0) (S.add a.half_t2_1 b.half_t2_1)

/-- The free `operator-(half2_t a, half2_t b)`. -/
def op_sub (S : HalfScalar H) (a b : half2_t H) : half2_t H :=
  ctor_half_half (S.sub a.half_t2_0 b.half_t2_0) (S.sub a.half_t2_1 b.half_t2_1)

/-- The free `operator*(half2_t a, half2_t b)`. -/
def op_mul (S : HalfScalar H) (a b : half2_t H) : half2_t H :=
  ctor_half_half (S.mul a.half_t2_0 b.half_t2_0) (S.mul a.half_t2_1 b.half_t2_1)

/-- The free `operator/(half2_t a, half2_t b)`. -/
def op_div (S : HalfScalar H) (a b : half2_t H) : half2_t H :=
  ctor_half_half (S.div a.half_t2_0 b.half_t2_0) (S.div a.half_t2_1 b.half_t2_1)

/-- The free `operator==(half2_t a, half2_t b)`. -/
def op_eq (S : HalfScalar H) (a b : half2_t H) : Bool :=
  S.eq a.half_t2_0 b.half_t2_0 && S.eq a.half_t2_1 b.half_t2_1

/-- The free binary operator selected by a `BinOp`. -/
def op_bin (S : HalfScalar H) : BinOp → half2_t H → half2_t H → half2_t H
  | .add => op_add S
  | .sub => op_sub S
  | .mul => op_mul S
  | .div => op_div S

/-- The member `operator+()`: returns `*this`, writes nothing. -/
def op_pos (s : Store (half2_t H)) (this : Addr) : Store (half2_t H) × half2_t H :=
  (s, s this)

/-- The member `operator-()`: reads both lanes of `*this`, writes nothing. -/
def op_neg (S : HalfScalar H) (s : Store (half2_t H)) (this : Addr) :
    Store (half2_t H) × half2_t H :=
  (s, ctor_half_half (S.neg (s this).half_t2_0) (S.neg (s this).half_t2_1))

/-- The member `operator=(const half2_t& a)`: two lane writes into `*this`,
each reading `a` through the reference at that moment, then a copy of `a`
is returned. -/
def op_assign (s : Store (half2_t H)) (this : Addr) (a : ConstRef (half2_t H)) :
    Store (half2_t H) × half2_t H :=
  let s1 := s.write this { s this with half_t2_0 := (a.get s).half_t2_0 }
  let s2 := s1.write this { s1 this with half_t2_1 := (a.get s1).half_t2_1 }
  (s2, ctor_copy (a.get s2))

/-- The member template generated by `MSHADOW_HALF2_ASSIGNOP(AOP, OP)` for an
argument of type `half2_t`: `return *this = half2_t(*this OP a);`.  The free
operator takes both operands by value, so both are read before anything is
written; its result is a temporary. -/
def MSHADOW_HALF2_ASSIGNOP (OP : half2_t H → half2_t H → half2_t H)
    (s : Store (half2_t H)) (this : Addr) (a : ConstRef (half2_t H)) :
    Store (half2_t H) × half2_t H :=
  op_assign s this (.tmp (ctor_copy (OP (s this) (a.get s))))

/-- The member `operator+=`. -/
def op_add_assign (S : HalfScalar H) := MSHADOW_HALF2_ASSIGNOP (op_add S)

/-- The member `operator-=`. -/
def op_sub_assign (S : HalfScalar H) := MSHADOW_HALF2_ASSIGNOP (op_sub S)

/-- The member `operator*=`. -/
def op_mul_assign (S : HalfScalar H) := MSHADOW_HALF2_ASSIGNOP (op_mul S)

/-- The member `operator/=`. -/
def op_div_assign (S : HalfScalar H) := MSHADOW_HALF2_ASSIGNOP (op_div S)

/-- The compound assignment selected by a `BinOp`. -/
def op_bin_assign (S : HalfScalar H) :
    BinOp → Store (half2_t H) → Addr → ConstRef (half2_t H) → Store (half2_t H) × half2_t H
  | .add => op_add_assign S
  | .sub => op_sub_assign S
  | .mul => op_mul_assign S
  | .div => op_div_assign S

/-- The statement `a = a OP b` written out by hand: evaluate the free operator
on the current values of `a` and `b`, then copy-assign the temporary to `a`.
This is the reference program for the compound assignments. -/
def stmt_assign_bin (S : HalfScalar H) (op : BinOp) (s : Store (half2_t H)) (a : Addr)
    (b : ConstRef (half2_t H)) : Store (half2_t H) × half2_t H :=
  op_assign s a (.tmp (op_bin S op (s a) (b.get s)))

end fallback

/-! ## Accelerated body (`MSHADOW_CUDA_HALF2 == 1`) -/

namespace cuda

/-- The class `half2_t` with member `half2 half2_`. -/
structure half2_t (N : Type) where
  half2_ : N
deriving DecidableEq, Repr

variable {N S : Type}

/-- The constructor `half2_t(half2 a)`. -/
def ctor_native (a : N) : half2_t N :=
  { half2_ := a }

/-- The constructor `half2_t(int a)`. -/
def ctor_int (C : CudaIntrinsics N S) (a : Int) : half2_t N :=
  { half2_ := C.half2half2 (C.int2half_rz a) }

/-- The implicit copy constructor. -/
def ctor_copy (a : half2_t N) : half2_t N :=
  { half2_ := a.half2_ }

/-- The free `operator+(half2_t a, half2_t b)`. -/
def op_add (C : CudaIntrinsics N S) (a b : half2_t N) : half2_t N :=
  ctor_native (C.hadd2 a.half2_ b.half2_)

/-- The free `operator-(half2_t a, half2_t b)`. -/
def op_sub (C : CudaIntrinsics N S) (a b : half2_t N) : half2_t N :=
  ctor_native (C.hsub2 a.half2_ b.half2_)

/-- The free `operator*(half2_t a, half2_t b)`. -/
def op_mul (C : CudaIntrinsics N S) (a b : half2_t N) : half2_t N :=
  ctor_native (C.hmul2 a.half2_ b.half2_)

/-- The free `operator/(half2_t a, half2_t b)`. -/
def op_div (C : CudaIntrinsics N S) (a b : half2_t N) : half2_t N :=
  ctor_native (C.h2div a.half2_ b.half2_)

/-- The free `operator==(half2_t a, half2_t b)`. -/
def op_eq (C : CudaIntrinsics N S) (a b : half2_t N) : Bool :=
  C.hbeq2 a.half2_ b.half2_

/-- The free binary operator selected by a `BinOp`. -/
def op_bin (C : CudaIntrinsics N S) : BinOp → half2_t N → half2_t N → half2_t N
  | .add => op_add C
  | .sub => op_sub C
  | .mul => op_mul C
  | .div => op_div C

/-- The member `operator+()`. -/
def op_pos (s : Store (half2_t N)) (this : Addr) : Store (half2_t N) × half2_t N :=
  (s, s this)

/-- The member `operator-()`. -/
def op_neg (C : CudaIntrinsics N S) (s : Store (half2_t N)) (this : Addr) :
    Store (half2_t N) × half2_t N :=
  (s, ctor_native (C.hneg2 (s this).half2_))

/-- The member `operator=(const half2_t& a)`: one write of the native value,
then a copy of `a` is returned. -/
def op_assign (s : Store (half2_t N)) (this : Addr) (a : ConstRef (half2_t N)) :
    Store (half2_t N) × half2_t N :=
  let s1 := s.write this { s this with half2_ := (a.get s).half2_ }
  (s1, ctor_copy (a.get s1))

/-- The member template generated by `MSHADOW_HALF2_ASSIGNOP(AOP, OP)` for an
argument of type `half2_t`. -/
def MSHADOW_HALF2_ASSIGNOP (OP : half2_t N → half2_t N → half2_t N)
    (s : Store (half2_t N)) (this : Addr) (a : ConstRef (half2_t N)) :
    Store (half2_t N) × half2_t N :=
  op_assign s this (.tmp (ctor_copy (OP (s this) (a.get s))))

/-- The member `operator+=`. -/
def op_add_assign (C : CudaIntrinsics N S) := MSHADOW_HALF2_ASSIGNOP (op_add C)

/-- The member `operator-=`. -/
def op_sub_assign (C : CudaIntrinsics N S) := MSHADOW_HALF2_ASSIGNOP (op_sub C)

/-- The member `operator*=`. -/
def op_mul_assign (C : CudaIntrinsics N S) := MSHADOW_HALF2_ASSIGNOP (op_mul C)

/-- The member `operator/=`. -/
def op_div_assign (C : CudaIntrinsics N S) := MSHADOW_HALF2_ASSIGNOP (op_div C)

/-- The compound assignment selected by a `BinOp`. -/
def op_bin_assign (C : CudaIntrinsics N S) :
    BinOp → Store (half2_t N) → Addr → ConstRef (half2_t N) → Store (half2_t N) × half2_t N
  | .add => op_add_assign C
  | .sub => op_sub_assign C
  | .mul => op_mul_assign C
  | .div => op_div_assign C

/-- The statement `a = a OP b` written out by hand, the reference program for
the compound assignments. -/
def stmt_assign_bin (C : CudaIntrinsics N S) (op : BinOp) (s : Store (half2_t N)) (a : Addr)
    (b : ConstRef (half2_t N)) : Store (half2_t N) × half2_t N :=
  op_assign s a (.tmp (op_bin C op (s a) (b.get s)))

end cuda

/-! ## Constructor declarations and implicit conversion -/

/-- Types of the parameters of the constructors of `half2_t`. -/
inductive ParamType where
  | int
  | half_t
  | half2
deriving DecidableEq, Repr

/-- Declaration of a constructor of `half2_t`: the types of its parameters
and whether it is declared `explicit`. -/
structure CtorDecl where
  params : List ParamType
  is_explicit : Bool
deriving DecidableEq, Repr

/-- A constructor is a converting constructor from `t`, one that an implicit
conversion of an argument of type `t` may call, when it takes exactly one
parameter of type `t` and is not declared `explicit`. -/
def CtorDecl.converts_from (c : CtorDecl) (t : ParamType) : Bool :=
  decide (c.params = [t]) && !c.is_explicit

/-- The argument expression of a call `x AOP arg` of the member template
`template<typename T> operator AOP (const T& a)`:

* `pair a`: an expression of type `half2_t`, bound to an object or to a
  temporary;
* `int n`: an expression of type `int` with value `n`;
* `converted v`: an expression of a class type that declares a non-explicit
  conversion function to `half2_t`, which yields `v` for this operand. -/
inductive Operand (α : Type) where
  | pair (a : ConstRef α)
  | int (n : Int)
  | converted (v : α)

/-- Overload resolution of `*this OP a` against the free operator of the
header, whose two parameters are `half2_t` by value: the operator is viable
when the operand has an implicit conversion to `half2_t`, and the result is
the value the parameter is initialised with.  A `half2_t` is copied; a class
with a conversion function is converted by it; an `int` is converted only by
a converting constructor from `int` among the declarations `decls`, which
then builds `from_int n`.  Without a viable operator the instantiation of the
template is ill-formed, which `none` stands for. -/
def Operand.implicit_conversion {α : Type} (decls : List CtorDecl) (from_int : Int → α)
    (s : Store α) : Operand α → Option α
  | .pair a => some (a.get s)
  | .int n => if decls.any (fun c => c.converts_from .int) then some (from_int n) else none
  | .converted v => some v

/-- A reading of the native type `half2` as two lanes of `__half`, with the
scalar operations by which cuda_fp16.h documents the two-wide intrinsics:
`low2half` and `high2half` are `__low2half` and `__high2half`, `hneg` is
`__hneg`, `heq` is `__heq`.  The header does not call them; they serve to
state what an intrinsic does to the lanes. -/
structure Half2Lanes (N S : Type) where
  low2half : N → S
  high2half : N → S
  hneg : S → S
  heq : S → S → Bool

namespace fallback

variable {H : Type}

/-- The constructor `half2_t() {}`: it writes nothing, so the lanes are what
the storage of the object held before, given here as `u`. -/
def ctor_default (u : half2_t H) : half2_t H :=
  u

/-- The constructors that the fallback body declares: `half2_t()` (line 39),
`explicit half2_t(half_t a, half_t b)` (line 44) and `explicit half2_t(int a)`
(line 50). -/
def ctor_decls : List CtorDecl :=
  [ { params := [], is_explicit := false },
    { params := [.half_t, .half_t], is_explicit := true },
    { params := [.int], is_explicit := true } ]

/-- The member template generated by `MSHADOW_HALF2_ASSIGNOP(AOP, OP)` for an
argument of any type `T`: `return *this = half2_t(*this OP a);` is well-formed
only when `*this OP a` finds a viable free operator. -/
def MSHADOW_HALF2_ASSIGNOP_T (S : HalfScalar H) (OP : half2_t H → half2_t H → half2_t H)
    (s : Store (half2_t H)) (this : Addr) (a : Operand (half2_t H)) :
    Option (Store (half2_t H) × half2_t H) :=
  match a.implicit_conversion ctor_decls (ctor_int S) s with
  | none => none
  | some b => some (op_assign s this (.tmp (ctor_copy (OP (s this) b))))

/-- The compound assignment selected by a `BinOp`, for an argument of any type. -/
def op_bin_assign_T (S : HalfScalar H) (op : BinOp) (s : Store (half2_t H)) (this : Addr)
    (a : Operand (half2_t H)) : Option (Store (half2_t H) × half2_t H) :=
  MSHADOW_HALF2_ASSIGNOP_T S (op_bin S op) s this a

end fallback

namespace cuda

variable {N S : Type}

/-- The constructor `half2_t() {}`: it writes nothing, so the native value is
what the storage of the object held before, given here as `u`. -/
def ctor_default (u : half2_t N) : half2_t N :=
  u

/-- The constructors that the accelerated body declares: `half2_t()`
(line 39), `explicit half2_t(half2 a)` (line 42) and `explicit half2_t(int a)`
(line 50). -/
def ctor_decls : List CtorDecl :=
  [ { params := [], is_explicit := false },
    { params := [.half2], is_explicit := true },
    { params := [.int], is_explicit := true } ]

/-- The member template generated by `MSHADOW_HALF2_ASSIGNOP(AOP, OP)` for an
argument of any type `T`. -/
def MSHADOW_HALF2_ASSIGNOP_T (C : CudaIntrinsics N S) (OP : half2_t N → half2_t N → half2_t N)
    (s : Store (half2_t N)) (this : Addr) (a : Operand (half2_t N)) :
    Option (Store (half2_t N) × half2_t N) :=
  match a.implicit_conversion ctor_decls (ctor_int C) s with
  | none => none
  | some b => some (op_assign s this (.tmp (ctor_copy (OP (s this) b))))

/-- The compound assignment selected by a `BinOp`, for an argument of any type. -/
def op_bin_assign_T (C : CudaIntrinsics N S) (op : BinOp) (s : Store (half2_t N)) (this : Addr)
    (a : Operand (half2_t N)) : Option (Store (half2_t N) × half2_t N) :=
  MSHADOW_HALF2_ASSIGNOP_T C (op_bin C op) s this a

end cuda

/-! ## The operations over primitives that may fail

To state that the header has no failing branch of its own, the operations
are embedded a second time over primitives whose calls may fail to return.
An operation of the header then fails only where the code makes it fail. -/

/-- The scalar operations of `half_t` as calls that may fail to return:
`none` stands for a trap or an exception inside the primitive. -/
structure TrappingScalar (H : Type) where
  ofInt : Int → Option H
  neg : H → Option H
  add : H → H → Option H
  sub : H → H → Option H
  mul : H → H → Option H
  div : H → H → Option H
  eq : H → H → Option Bool

/-- Every scalar primitive returns on every input. -/
structure TrappingScalar.Total {H : Type} (T : TrappingScalar H) : Prop where
  ofInt : ∀ n, (T.ofInt n).isSome = true
  neg : ∀ x, (T.neg x).isSome = true
  add : ∀ x y, (T.add x y).isSome = true
  sub : ∀ x y, (T.sub x y).isSome = true
  mul : ∀ x y, (T.mul x y).isSome = true
  div : ∀ x y, (T.div x y).isSome = true
  eq : ∀ x y, (T.eq x y).isSome = true

/-- A scalar interface whose operations are functions, read as calls that
always return. -/
def HalfScalar.trapping {H : Type} (S : HalfScalar H) : TrappingScalar H where
  ofInt := fun n => some (S.ofInt n)
  neg := fun x => some (S.neg x)
  add := fun x y => some (S.add x y)
  sub := fun x y => some (S.sub x y)
  mul := fun x y => some (S.mul x y)
  div := fun x y => some (S.div x y)
  eq := fun x y => some (S.eq x y)

/-- The scalar call that corresponds to a `BinOp`. -/
def TrappingScalar.binop {H : Type} (T : TrappingScalar H) : BinOp → H → H → Option H
  | .add => T.add
  | .sub => T.sub
  | .mul => T.mul
  | .div => T.div

/-- The CUDA intrinsics as calls that may fail to return. -/
structure TrappingIntrinsics (N S : Type) where
  int2half_rz : Int → Option S
  half2half2 : S → Option N
  hneg2 : N → Option N
  hadd2 : N → N → Option N
  hsub2 : N → N → Option N
  hmul2 : N → N → Option N
  h2div : N → N → Option N
  hbeq2 : N → N → Option Bool

/-- Every intrinsic returns on every input. -/
structure TrappingIntrinsics.Total {N S : Type} (C : TrappingIntrinsics N S) : Prop where
  int2half_rz : ∀ n, (C.int2half_rz n).isSome = true
  half2half2 : ∀ x, (C.half2half2 x).isSome = true
  hneg2 : ∀ x, (C.hneg2 x).isSome = true
  hadd2 : ∀ x y, (C.hadd2 x y).isSome = true
  hsub2 : ∀ x y, (C.hsub2 x y).isSome = true
  hmul2 : ∀ x y, (C.hmul2 x y).isSome = true
  h2div : ∀ x y, (C.h2div x y).isSome = true
  hbeq2 : ∀ x y, (C.hbeq2 x y).isSome = true

/-- Intrinsics that are functions, read as calls that always return. -/
def CudaIntrinsics.trapping {N S : Type} (C : CudaIntrinsics N S) : TrappingIntrinsics N S where
  int2half_rz := fun n => some (C.int2half_rz n)
  half2half2 := fun x => some (C.half2half2 x)
  hneg2 := fun x => some (C.hneg2 x)
  hadd2 := fun x y => some (C.hadd2 x y)
  hsub2 := fun x y => some (C.hsub2 x y)
  hmul2 := fun x y => some (C.hmul2 x y)
  h2div := fun x y => some (C.h2div x y)
  hbeq2 := fun x y => some (C.hbeq2 x y)

namespace fallback
namespace trap

variable {H : Type}

/-- The constructor `half2_t() {}`: no call at all. -/
def ctor_default (u : half2_t H) : Option (half2_t H) :=
  some u

/-- The constructor `half2_t(half_t a, half_t b)`: two lane stores. -/
def ctor_half_half (a b : H) : Option (half2_t H) :=
  some { half_t2_0 := a, half_t2_1 := b }

/-- The constructor `half2_t(int a)`: the conversion is called once for each
lane. -/
def ctor_int (T : TrappingScalar H) (a : Int) : Option (half2_t H) := do
  let x ← T.ofInt a
  let y ← T.ofInt a
  ctor_half_half x y

/-- The free `operator+`: one scalar `+` for each lane. -/
def op_add (T : TrappingScalar H) (a b : half2_t H) : Option (half2_t H) := do
  let x ← T.add a.half_t2_0 b.half_t2_0
  let y ← T.add a.half_t2_1 b.half_t2_1
  ctor_half_half x y

/-- The free `operator-`: one scalar `-` for each lane. -/
def op_sub (T : TrappingScalar H) (a b : half2_t H) : Option (half2_t H) := do
  let x ← T.sub a.half_t2_0 b.half_t2_0
  let y ← T.sub a.half_t2_1 b.half_t2_1
  ctor_half_half x y

/-- The free `operator*`: one scalar `*` for each lane. -/
def op_mul (T : TrappingScalar H) (a b : half2_t H) : Option (half2_t H) := do
  let x ← T.mul a.half_t2_0 b.half_t2_0
  let y ← T.mul a.half_t2_1 b.half_t2_1
  ctor_half_half x y

/-- The free `operator/`: one scalar `/` for each lane, with no test of the
divisor. -/
def op_div (T : TrappingScalar H) (a b : half2_t H) : Option (half2_t H) := do
  let x ← T.div a.half_t2_0 b.half_t2_0
  let y ← T.div a.half_t2_1 b.half_t2_1
  ctor_half_half x y

/-- The free `operator==`: the comparison of lane 1 is evaluated only when the
comparison of lane 0 is true (`&&`). -/
def op_eq (T : TrappingScalar H) (a b : half2_t H) : Option Bool := do
  let e ← T.eq a.half_t2_0 b.half_t2_0
  if e then T.eq a.half_t2_1 b.half_t2_1 else pure false

/-- The free binary operator selected by a `BinOp`. -/
def op_bin (T : TrappingScalar H) : BinOp → half2_t H → half2_t H → Option (half2_t H)
  | .add => op_add T
  | .sub => op_sub T
  | .mul => op_mul T
  | .div => op_div T

/-- The member `operator+()`: no call at all. -/
def op_pos (s : Store (half2_t H)) (this : Addr) : Option (Store (half2_t H) × half2_t H) :=
  some (s, s this)

/-- The member `operator-()`: one scalar negation for each lane. -/
def op_neg (T : TrappingScalar H) (s : Store (half2_t H)) (this : Addr) :
    Option (Store (half2_t H) × half2_t H) := do
  let x ← T.neg (s this).half_t2_0
  let y ← T.neg (s this).half_t2_1
  let r ← ctor_half_half x y
  pure (s, r)

/-- The member `operator=`: two lane copies and the copy that is returned;
no scalar operator is called. -/
def op_assign (s : Store (half2_t H)) (this : Addr) (a : ConstRef (half2_t H)) :
    Option (Store (half2_t H) × half2_t H) :=
  some (fallback.op_assign s this a)

/-- The member template generated by `MSHADOW_HALF2_ASSIGNOP(AOP, OP)`: the
free operator, then copy-assign of its result. -/
def MSHADOW_HALF2_ASSIGNOP (OP : half2_t H → half2_t H → Option (half2_t H))
    (s : Store (half2_t H)) (this : Addr) (a : ConstRef (half2_t H)) :
    Option (Store (half2_t H) × half2_t H) := do
  let t ← OP (s this) (a.get s)
  op_assign s this (.tmp (ctor_copy t))

/-- The compound assignment selected by a `BinOp`. -/
def op_bin_assign (T : TrappingScalar H) (op : BinOp) (s : Store (half2_t H)) (this : Addr)
    (a : ConstRef (half2_t H)) : Option (Store (half2_t H) × half2_t H) :=
  MSHADOW_HALF2_ASSIGNOP (op_bin T op) s this a

end trap
end fallback

namespace cuda
namespace trap

variable {N S : Type}

/-- The constructor `half2_t() {}`: no call at all. -/
def ctor_default (u : half2_t N) : Option (half2_t N) :=
  some u

/-- The constructor `half2_t(half2 a)`: one store. -/
def ctor_native (a : N) : Option (half2_t N) :=
  some { half2_ := a }

/-- The constructor `half2_t(int a)`: `__int2half_rz`, then `__half2half2`. -/
def ctor_int (C : TrappingIntrinsics N S) (a : Int) : Option (half2_t N) := do
  let h ← C.int2half_rz a
  let v ← C.half2half2 h
  ctor_native v

/-- The free `operator+`: `__hadd2`. -/
def op_add (C : TrappingIntrinsics N S) (a b : half2_t N) : Option (half2_t N) := do
  let v ← C.hadd2 a.half2_ b.half2_
  ctor_native v

/-- The free `operator-`: `__hsub2`. -/
def op_sub (C : TrappingIntrinsics N S) (a b : half2_t N) : Option (half2_t N) := do
  let v ← C.hsub2 a.half2_ b.half2_
  ctor_native v

/-- The free `operator*`: `__hmul2`. -/
def op_mul (C : TrappingIntrinsics N S) (a b : half2_t N) : Option (half2_t N) := do
  let v ← C.hmul2 a.half2_ b.half2_
  ctor_native v

/-- The free `operator/`: `h2div`, with no test of the divisor. -/
def op_div (C : TrappingIntrinsics N S) (a b : half2_t N) : Option (half2_t N) := do
  let v ← C.h2div a.half2_ b.half2_
  ctor_native v

/-- The free `operator==`: `__hbeq2`. -/
def op_eq (C : TrappingIntrinsics N S) (a b : half2_t N) : Option Bool :=
  C.hbeq2 a.half2_ b.half2_

/-- The free binary operator selected by a `BinOp`. -/
def op_bin (C : TrappingIntrinsics N S) : BinOp → half2_t N → half2_t N → Option (half2_t N)
  | .add => op_add C
  | .sub => op_sub C
  | .mul => op_mul C
  | .div => op_div C

/-- The member `operator+()`: no call at all. -/
def op_pos (s : Store (half2_t N)) (this : Addr) : Option (Store (half2_t N) × half2_t N) :=
  some (s, s this)

/-- The member `operator-()`: `__hneg2`. -/
def op_neg (C : TrappingIntrinsics N S) (s : Store (half2_t N)) (this : Addr) :
    Option (Store (half2_t N) × half2_t N) := do
  let v ← C.hneg2 (s this).half2_
  let r ← ctor_native v
  pure (s, r)

/-- The member `operator=`: one copy of the native value and the copy that is
returned; no intrinsic is called. -/
def op_assign (s : Store (half2_t N)) (this : Addr) (a : ConstRef (half2_t N)) :
    Option (Store (half2_t N) × half2_t N) :=
  some (cuda.op_assign s this a)

/-- The member template generated by `MSHADOW_HALF2_ASSIGNOP(AOP, OP)`. -/
def MSHADOW_HALF2_ASSIGNOP (OP : half2_t N → half2_t N → Option (half2_t N))
    (s : Store (half2_t N)) (this : Addr) (a : ConstRef (half2_t N)) :
    Option (Store (half2_t N) × half2_t N) := do
  let t ← OP (s this) (a.get s)
  op_assign s this (.tmp (ctor_copy t))

/-- The compound assignment selected by a `BinOp`. -/
def op_bin_assign (C : TrappingIntrinsics N S) (op : BinOp) (s : Store (half2_t N))
    (this : Addr) (a : ConstRef (half2_t N)) : Option (Store (half2_t N) × half2_t N) :=
  MSHADOW_HALF2_ASSIGNOP (op_bin C op) s this a

end trap
end cuda

/-! ## Capability gate (half2.h, lines 11 to 18) -/

/-- The macros that the `#if` of line 11 reads.  Each is `none` when the macro
is not defined and `some v` when it is defined with the integer value `v`. -/
structure MacroEnv where
  __CUDACC__ : Option Int
  __CUDA_ARCH__ : Option Int
  MSHADOW_USE_CUDA : Option Int
  CUDA_VERSION : Option Int
deriving DecidableEq, Repr

/-- The preprocessor operator `defined(X)`. -/
def pp_defined (m : Option Int) : Bool :=
  m.isSome

/-- The value of an identifier inside `#if`: its expansion, or 0 when the
identifier is not a defined macro. -/
def pp_value (m : Option Int) : Int :=
  m.getD 0

/-- The macro `MSHADOW_CUDA_HALF2` as lines 11 to 18 define it from
`defined(__CUDACC__) && __CUDA_ARCH__ >= 530 && MSHADOW_USE_CUDA &&
CUDA_VERSION >= 7050`. -/
def MSHADOW_CUDA_HALF2 (e : MacroEnv) : Int :=
  if pp_defined e.__CUDACC__ && decide (pp_value e.__CUDA_ARCH__ ≥ 530) &&
      decide (pp_value e.MSHADOW_USE_CUDA ≠ 0) && decide (pp_value e.CUDA_VERSION ≥ 7050)
  then 1 else 0

/-- The two bodies of the class and of every operator. -/
inductive Body where
  | accelerated
  | fallback
deriving DecidableEq, Repr

/-- The body that every `#if MSHADOW_CUDA_HALF2 ... #else ... #endif` of the
header compiles. -/
def selected_body (e : MacroEnv) : Body :=
  if MSHADOW_CUDA_HALF2 e ≠ 0 then .accelerated else .fallback

/-- A device compilation for compute capability 6.0 with CUDA 8.0 enabled. -/
def demoEnvDevice : MacroEnv :=
  { __CUDACC__ := some 1, __CUDA_ARCH__ := some 600, MSHADOW_USE_CUDA := some 1,
    CUDA_VERSION := some 8000 }

/-- A host compilation without CUDA: none of the macros is defined. -/
def demoEnvHost : MacroEnv :=
  { __CUDACC__ := none, __CUDA_ARCH__ := none, MSHADOW_USE_CUDA := none, CUDA_VERSION := none }

/-! ## Concrete instances used to run the definitions -/

/-- An instance of the scalar interface with exact integer arithmetic.  It
serves to evaluate the definitions on concrete inputs; it makes no statement
about the rounding of half precision. -/
def intScalar : HalfScalar Int where
  ofInt := fun n => n
  neg := fun x => -x
  add := fun x y => x + y
  sub := fun x y => x - y
  mul := fun x y => x * y
  div := fun x y => x / y
  eq := fun x y => decide (x = y)

/-- An instance of the intrinsics over pairs of integers, lane by lane. -/
def intIntrinsics : CudaIntrinsics (Int × Int) Int where
  int2half_rz := fun n => n
  half2half2 := fun x => (x, x)
  hneg2 := fun a => (-a.1, -a.2)
  hadd2 := fun a b => (a.1 + b.1, a.2 + b.2)
  hsub2 := fun a b => (a.1 - b.1, a.2 - b.2)
  hmul2 := fun a b => (a.1 * b.1, a.2 * b.2)
  h2div := fun a b => (a.1 / b.1, a.2 / b.2)
  hbeq2 := fun a b => decide (a.1 = b.1) && decide (a.2 = b.2)

/-- The lane reading of pairs of integers that goes with `intIntrinsics`. -/
def intLanes : Half2Lanes (Int × Int) Int where
  low2half := fun a => a.1
  high2half := fun a => a.2
  hneg := fun x => -x
  heq := fun x y => decide (x = y)

/-- A store of fallback pairs over the integers: object `p` holds `(p, p + 10)`. -/
def demoStore : Store (fallback.half2_t Int) :=
  fun p => { half_t2_0 := (p : Int), half_t2_1 := (p : Int) + 10 }

/-- A store of accelerated pairs over the integers: object `p` holds `(p, p + 10)`. -/
def demoStoreCuda : Store (cuda.half2_t (Int × Int)) :=
  fun p => { half2_ := ((p : Int), (p : Int) + 10) }

/-! ## Lemmas on the store -/

theorem Store.write_same {α : Type} (s : Store α) (p : Addr) (v : α) :
    s.write p v p = v := by
  simp [Store.write]

theorem Store.write_other {α : Type} (s : Store α) (p q : Addr) (v : α) (h : q ≠ p) :
    s.write p v q = s q := by
  simp [Store.write, h]

/-! ## The binary operators act lane by lane -/

/-- C1. Fallback body: for each of `+ - * /`, lane 0 of `a OP b` is the scalar
`OP` of the two lane-0 values and lane 1 of `a OP b` is the scalar `OP` of the
two lane-1 values; no lane is swapped or mixed. -/
theorem op_bin_lanes {H : Type} (S : HalfScalar H) (op : BinOp) (a b : fallback.half2_t H) :
    (fallback.op_bin S op a b).half_t2_0 = S.binop op a.half_t2_0 b.half_t2_0 ∧
    (fallback.op_bin S op a b).half_t2_1 = S.binop op a.half_t2_1 b.half_t2_1 := by
  cases op <;> exact ⟨rfl, rfl⟩

/-- C2. For every integer `n`, `half2_t(n)` has lane 0 and lane 1 both equal
to the scalar conversion of `n`.  Fallback body: both lanes are `(half_t)n`.
Accelerated body: the native value is `__half2half2(__int2half_rz(n))`, and
for every lane reading of `half2` under which `__half2half2` is a broadcast,
both lanes are `__int2half_rz(n)`. -/
theorem ctor_int_broadcast {H N T : Type} (S : HalfScalar H) (C : CudaIntrinsics N T)
    (L : Half2Lanes N T) (n : Int) :
    ((fallback.ctor_int S n).half_t2_0 = S.ofInt n ∧
      (fallback.ctor_int S n).half_t2_1 = S.ofInt n) ∧
    ((cuda.ctor_int C n).half2_ = C.half2half2 (C.int2half_rz n) ∧
      ((∀ x : T, L.low2half (C.half2half2 x) = x ∧ L.high2half (C.half2half2 x) = x) →
        L.low2half (cuda.ctor_int C n).half2_ = C.int2half_rz n ∧
        L.high2half (cuda.ctor_int C n).half2_ = C.int2half_rz n)) := by
  refine ⟨⟨rfl, rfl⟩, rfl, ?_⟩
  intro hb
  exact hb (C.int2half_rz n)

/-- Witness of C2 over the integers: `intIntrinsics.half2half2` is a broadcast
under `intLanes`, and both lanes of `half2_t(5)` are the conversion of 5. -/
theorem ctor_int_broadcast_witness :
    (∀ x : Int, intLanes.low2half (intIntrinsics.half2half2 x) = x ∧
        intLanes.high2half (intIntrinsics.half2half2 x) = x) ∧
    intLanes.low2half (cuda.ctor_int intIntrinsics 5).half2_ = intIntrinsics.int2half_rz 5 ∧
    intLanes.high2half (cuda.ctor_int intIntrinsics 5).half2_ = intIntrinsics.int2half_rz 5 :=
  ⟨fun _ => ⟨rfl, rfl⟩,
    (ctor_int_broadcast intScalar intIntrinsics intLanes 5).2.2 (fun _ => ⟨rfl, rfl⟩)⟩

/-! ## Equality -/

/-- C3. For every pair `a` and `b`, `operator==(a, b)` is true if and only if
lane 0 of `a` equals lane 0 of `b` under scalar `==` and lane 1 of `a` equals
lane 1 of `b` under scalar `==`; so it is false as soon as one lane differs.
Fallback body: with the `==` of `half_t`.  Accelerated body: the result is
`__hbeq2` of the two native values, and for every lane reading of `half2`
under which `__hbeq2` is the conjunction of the two lane comparisons, the
same equivalences hold with the `==` of `__half`. -/
theorem op_eq_iff_lanes {H N T : Type} (S : HalfScalar H) (C : CudaIntrinsics N T)
    (L : Half2Lanes N T) (a b : fallback.half2_t H) (f g : cuda.half2_t N) :
    ((fallback.op_eq S a b = true ↔
        (S.eq a.half_t2_0 b.half_t2_0 = true ∧ S.eq a.half_t2_1 b.half_t2_1 = true)) ∧
      (fallback.op_eq S a b = false ↔
        (S.eq a.half_t2_0 b.half_t2_0 = false ∨ S.eq a.half_t2_1 b.half_t2_1 = false))) ∧
    (cuda.op_eq C f g = C.hbeq2 f.half2_ g.half2_ ∧
      ((∀ x y : N, C.hbeq2 x y =
          (L.heq (L.low2half x) (L.low2half y) && L.heq (L.high2half x) (L.high2half y))) →
        (cuda.op_eq C f g = true ↔
          (L.heq (L.low2half f.half2_) (L.low2half g.half2_) = true ∧
            L.heq (L.high2half f.half2_) (L.high2half g.half2_) = true)) ∧
        (cuda.op_eq C f g = false ↔
          (L.heq (L.low2half f.half2_) (L.low2half g.half2_) = false ∨
            L.heq (L.high2half f.half2_) (L.high2half g.half2_) = false)))) := by
  refine ⟨⟨?_, ?_⟩, rfl, ?_⟩
  · exact Bool.and_eq_true_iff
  · exact Bool.and_eq_false_iff
  · intro hq
    unfold cuda.op_eq
    rw [hq]
    exact ⟨Bool.and_eq_true_iff, Bool.and_eq_false_iff⟩

/-- Witness of C3 over the integers: `intIntrinsics.hbeq2` is the conjunction
of the lane comparisons of `intLanes`; `(5, 5) == (5, 4)` is false because
lane 1 differs. -/
theorem op_eq_iff_lanes_witness :
    (∀ x y : Int × Int, intIntrinsics.hbeq2 x y =
        (intLanes.heq (intLanes.low2half x) (intLanes.low2half y) &&
          intLanes.heq (intLanes.high2half x) (intLanes.high2half y))) ∧
    cuda.op_eq intIntrinsics ⟨(5, 5)⟩ ⟨(5, 4)⟩ = false :=
  ⟨fun _ _ => rfl,
    ((op_eq_iff_lanes intScalar intIntrinsics intLanes ⟨5, 5⟩ ⟨5, 4⟩ ⟨(5, 5)⟩ ⟨(5, 4)⟩).2.2
      (fun _ _ => rfl)).2.2 (Or.inr (by decide))⟩

/-! ## Copy assignment -/

theorem fallback_op_assign_store {H : Type} (s : Store (fallback.half2_t H)) (x : Addr)
    (y : ConstRef (fallback.half2_t H)) (q : Addr) :
    (fallback.op_assign s x y).1 q = if q = x then y.get s else s q := by
  cases y with
  | obj p =>
    by_cases hq : q = x
    · by_cases hp : p = x <;> simp [fallback.op_assign, Store.write, ConstRef.get, hq, hp]
    · simp [fallback.op_assign, Store.write, hq]
  | tmp v =>
    by_cases hq : q = x <;> simp [fallback.op_assign, Store.write, ConstRef.get, hq]

theorem cuda_op_assign_store {N : Type} (s : Store (cuda.half2_t N)) (x : Addr)
    (y : ConstRef (cuda.half2_t N)) (q : Addr) :
    (cuda.op_assign s x y).1 q = if q = x then y.get s else s q := by
  cases y with
  | obj p =>
    by_cases hq : q = x <;> simp [cuda.op_assign, Store.write, ConstRef.get, hq]
  | tmp v =>
    by_cases hq : q = x <;> simp [cuda.op_assign, Store.write, ConstRef.get, hq]

theorem fallback_get_after_assign {H : Type} (s : Store (fallback.half2_t H)) (x : Addr)
    (y : ConstRef (fallback.half2_t H)) :
    y.get (fallback.op_assign s x y).1 = y.get s := by
  cases y with
  | obj p =>
    show (fallback.op_assign s x (.obj p)).1 p = s p
    rw [fallback_op_assign_store]
    by_cases hp : p = x <;> simp [ConstRef.get, hp]
  | tmp v => rfl

theorem cuda_get_after_assign {N : Type} (s : Store (cuda.half2_t N)) (x : Addr)
    (y : ConstRef (cuda.half2_t N)) :
    y.get (cuda.op_assign s x y).1 = y.get s := by
  cases y with
  | obj p =>
    show (cuda.op_assign s x (.obj p)).1 p = s p
    rw [cuda_op_assign_store]
    by_cases hp : p = x <;> simp [ConstRef.get, hp]
  | tmp v => rfl

theorem fallback_op_assign_result {H : Type} (s : Store (fallback.half2_t H)) (x : Addr)
    (y : ConstRef (fallback.half2_t H)) :
    (fallback.op_assign s x y).2 = y.get s := by
  have h := fallback_get_after_assign s x y
  simp only [fallback.op_assign, fallback.ctor_copy] at h ⊢
  rw [h]

theorem cuda_op_assign_result {N : Type} (s : Store (cuda.half2_t N)) (x : Addr)
    (y : ConstRef (cuda.half2_t N)) :
    (cuda.op_assign s x y).2 = y.get s := by
  have h := cuda_get_after_assign s x y
  simp only [cuda.op_assign, cuda.ctor_copy] at h ⊢
  rw [h]

/-- C4. For every receiver `x` and source `y` (an object, possibly `x`
itself, or a temporary), the expression `x = y` evaluates to a value whose
lanes are the lanes of the source `y`, whatever `x` held before; this holds
in the fallback body (lane 0 and lane 1) and in the accelerated body (the
native value). -/
theorem op_assign_returns_source {H N : Type}
    (s : Store (fallback.half2_t H)) (x : Addr) (y : ConstRef (fallback.half2_t H))
    (c : Store (cuda.half2_t N)) (u : Addr) (v : ConstRef (cuda.half2_t N)) :
    ((fallback.op_assign s x y).2.half_t2_0 = (y.get s).half_t2_0 ∧
      (fallback.op_assign s x y).2.half_t2_1 = (y.get s).half_t2_1) ∧
    (cuda.op_assign c u v).2.half2_ = (v.get c).half2_ := by
  rw [fallback_op_assign_result, cuda_op_assign_result]
  exact ⟨⟨rfl, rfl⟩, rfl⟩

/-- C5. After the copy-assign `x = y` the receiver `x` holds lane 0 of `y` in
lane 0 and lane 1 of `y` in lane 1, the source `y` reads the same as before
(also when `y` is `x` itself), and no object other than the receiver is
written; in the accelerated body the same holds for the native value. -/
theorem op_assign_effect {H N : Type}
    (s : Store (fallback.half2_t H)) (x : Addr) (y : ConstRef (fallback.half2_t H))
    (c : Store (cuda.half2_t N)) (u : Addr) (v : ConstRef (cuda.half2_t N)) :
    (((fallback.op_assign s x y).1 x).half_t2_0 = (y.get s).half_t2_0 ∧
      ((fallback.op_assign s x y).1 x).half_t2_1 = (y.get s).half_t2_1 ∧
      y.get (fallback.op_assign s x y).1 = y.get s ∧
      ∀ q : Addr, q ≠ x → (fallback.op_assign s x y).1 q = s q) ∧
    (((cuda.op_assign c u v).1 u).half2_ = (v.get c).half2_ ∧
      v.get (cuda.op_assign c u v).1 = v.get c ∧
      ∀ q : Addr, q ≠ u → (cuda.op_assign c u v).1 q = c q) := by
  refine ⟨⟨?_, ?_, fallback_get_after_assign s x y, ?_⟩,
    ⟨?_, cuda_get_after_assign c u v, ?_⟩⟩
  · rw [fallback_op_assign_store, if_pos rfl]
  · rw [fallback_op_assign_store, if_pos rfl]
  · intro q hq
    rw [fallback_op_assign_store, if_neg hq]
  · rw [cuda_op_assign_store, if_pos rfl]
  · intro q hq
    rw [cuda_op_assign_store, if_neg hq]

/-- Witness of C5 on concrete stores: object 0 is assigned from object 1; the
distinct object 1 is not written, in either body. -/
theorem op_assign_effect_witness :
    ((1 : Addr) ≠ 0 ∧ (fallback.op_assign demoStore 0 (.obj 1)).1 1 = demoStore 1) ∧
    ((1 : Addr) ≠ 0 ∧ (cuda.op_assign demoStoreCuda 0 (.obj 1)).1 1 = demoStoreCuda 1) :=
  ⟨⟨by decide,
      (op_assign_effect demoStore 0 (.obj 1) demoStoreCuda 0 (.obj 1)).1.2.2.2 1 (by decide)⟩,
    ⟨by decide,
      (op_assign_effect demoStore 0 (.obj 1) demoStoreCuda 0 (.obj 1)).2.2.2 1 (by decide)⟩⟩

/-! ## Compound assignment -/

theorem fallback_ctor_copy_id {H : Type} (a : fallback.half2_t H) :
    fallback.ctor_copy a = a := rfl

theorem cuda_ctor_copy_id {N : Type} (a : cuda.half2_t N) :
    cuda.ctor_copy a = a := rfl

theorem fallback_op_bin_assign_unfold {H : Type} (S : HalfScalar H) (op : BinOp)
    (s : Store (fallback.half2_t H)) (a : Addr) (b : ConstRef (fallback.half2_t H)) :
    fallback.op_bin_assign S op s a b =
      fallback.op_assign s a (.tmp (fallback.op_bin S op (s a) (b.get s))) := by
  cases op <;> rfl

theorem cuda_op_bin_assign_unfold {N T : Type} (C : CudaIntrinsics N T) (op : BinOp)
    (s : Store (cuda.half2_t N)) (a : Addr) (b : ConstRef (cuda.half2_t N)) :
    cuda.op_bin_assign C op s a b =
      cuda.op_assign s a (.tmp (cuda.op_bin C op (s a) (b.get s))) := by
  cases op <;> rfl

/-- C6. For each `OP` of `+ - * /`, the compound assignment `a OP= b` and the
statement `a = a OP b`, run from the same store, end in the same store and
yield the same value; the receiver then holds `(old a) OP b`, and every
object other than `a` (so `b`, when it is another object) is left as it was.
This holds in the fallback body and in the accelerated body. -/
theorem compound_assign_equiv {H N T : Type} (S : HalfScalar H) (C : CudaIntrinsics N T)
    (op : BinOp)
    (s : Store (fallback.half2_t H)) (a : Addr) (b : ConstRef (fallback.half2_t H))
    (c : Store (cuda.half2_t N)) (u : Addr) (v : ConstRef (cuda.half2_t N)) :
    (fallback.op_bin_assign S op s a b = fallback.stmt_assign_bin S op s a b ∧
      (fallback.op_bin_assign S op s a b).1 a = fallback.op_bin S op (s a) (b.get s) ∧
      ∀ q : Addr, q ≠ a → (fallback.op_bin_assign S op s a b).1 q = s q) ∧
    (cuda.op_bin_assign C op c u v = cuda.stmt_assign_bin C op c u v ∧
      (cuda.op_bin_assign C op c u v).1 u = cuda.op_bin C op (c u) (v.get c) ∧
      ∀ q : Addr, q ≠ u → (cuda.op_bin_assign C op c u v).1 q = c q) := by
  rw [fallback_op_bin_assign_unfold, cuda_op_bin_assign_unfold]
  refine ⟨⟨rfl, ?_, ?_⟩, ⟨rfl, ?_, ?_⟩⟩
  · rw [fallback_op_assign_store, if_pos rfl]; rfl
  · intro q hq
    rw [fallback_op_assign_store, if_neg hq]
  · rw [cuda_op_assign_store, if_pos rfl]; rfl
  · intro q hq
    rw [cuda_op_assign_store, if_neg hq]

/-- Witness of C6 on concrete stores: `a` is object 0, `b` is object 1 and
`OP` is `/`; the distinct object 1 is left as it was, in either body. -/
theorem compound_assign_equiv_witness :
    ((1 : Addr) ≠ 0 ∧
      (fallback.op_bin_assign intScalar .div demoStore 0 (.obj 1)).1 1 = demoStore 1) ∧
    ((1 : Addr) ≠ 0 ∧
      (cuda.op_bin_assign intIntrinsics .div demoStoreCuda 0 (.obj 1)).1 1 = demoStoreCuda 1) :=
  ⟨⟨by decide,
      (compound_assign_equiv intScalar intIntrinsics .div demoStore 0 (.obj 1)
        demoStoreCuda 0 (.obj 1)).1.2.2 1 (by decide)⟩,
    ⟨by decide,
      (compound_assign_equiv intScalar intIntrinsics .div demoStore 0 (.obj 1)
        demoStoreCuda 0 (.obj 1)).2.2.2 1 (by decide)⟩⟩

/-! ## Unary minus -/

/-- C7. For every pair `a`, `-a` is a pair whose lane 0 is the scalar negation
of lane 0 of `a` and whose lane 1 is the scalar negation of lane 1 of `a`, and
evaluating it writes no object: `a` is left unchanged.  Fallback body: with
the unary minus of `half_t`.  Accelerated body: the result is `__hneg2` of the
native value of `a`, nothing is written, and for every lane reading of
`half2` under which `__hneg2` negates each lane, the lanes of the result are
the negations of the lanes of `a`. -/
theorem op_neg_lanes {H N T : Type} (S : HalfScalar H) (C : CudaIntrinsics N T)
    (L : Half2Lanes N T) (s : Store (fallback.half2_t H)) (a : Addr)
    (c : Store (cuda.half2_t N)) (u : Addr) :
    ((fallback.op_neg S s a).2.half_t2_0 = S.neg (s a).half_t2_0 ∧
      (fallback.op_neg S s a).2.half_t2_1 = S.neg (s a).half_t2_1 ∧
      (fallback.op_neg S s a).1 = s) ∧
    ((cuda.op_neg C c u).2.half2_ = C.hneg2 (c u).half2_ ∧
      (cuda.op_neg C c u).1 = c ∧
      ((∀ x : N, L.low2half (C.hneg2 x) = L.hneg (L.low2half x) ∧
          L.high2half (C.hneg2 x) = L.hneg (L.high2half x)) →
        L.low2half (cuda.op_neg C c u).2.half2_ = L.hneg (L.low2half (c u).half2_) ∧
        L.high2half (cuda.op_neg C c u).2.half2_ = L.hneg (L.high2half (c u).half2_))) := by
  refine ⟨⟨rfl, rfl, rfl⟩, rfl, rfl, ?_⟩
  intro hn
  exact hn (c u).half2_

/-- Witness of C7 over the integers: `intIntrinsics.hneg2` negates each lane
of `intLanes`; the negation of object 3 of the demonstration store, which
holds `(3, 13)`, has lanes `-3` and `-13`. -/
theorem op_neg_lanes_witness :
    (∀ x : Int × Int, intLanes.low2half (intIntrinsics.hneg2 x) =
          intLanes.hneg (intLanes.low2half x) ∧
        intLanes.high2half (intIntrinsics.hneg2 x) = intLanes.hneg (intLanes.high2half x)) ∧
    intLanes.low2half (cuda.op_neg intIntrinsics demoStoreCuda 3).2.half2_ = -3 ∧
    intLanes.high2half (cuda.op_neg intIntrinsics demoStoreCuda 3).2.half2_ = -13 :=
  ⟨fun _ => ⟨rfl, rfl⟩,
    (op_neg_lanes intScalar intIntrinsics intLanes demoStore 3 demoStoreCuda 3).2.2.2
      (fun _ => ⟨rfl, rfl⟩)⟩

/-! ## Pair laws reduce to scalar laws

The header adds no arithmetic of its own: a law of the pair holds at given
operands exactly when the same law of `half_t` holds in each lane.  Whether
`half_t` satisfies such a law is a property of mshadow/half.h. -/

theorem add_neg_eq_zero_iff_lanes {H : Type} (S : HalfScalar H)
    (s : Store (fallback.half2_t H)) (a : Addr) :
    fallback.op_eq S (fallback.op_add S (s a) (fallback.op_neg S s a).2)
        (fallback.ctor_int S 0) = true ↔
      (S.eq (S.add (s a).half_t2_0 (S.neg (s a).half_t2_0)) (S.ofInt 0) = true ∧
        S.eq (S.add (s a).half_t2_1 (S.neg (s a).half_t2_1)) (S.ofInt 0) = true) := by
  simp [fallback.op_eq, fallback.op_add, fallback.op_neg, fallback.ctor_int,
    fallback.ctor_half_half]

theorem add_comm_eq_iff_lanes {H : Type} (S : HalfScalar H) (a b : fallback.half2_t H) :
    fallback.op_eq S (fallback.op_add S a b) (fallback.op_add S b a) = true ↔
      (S.eq (S.add a.half_t2_0 b.half_t2_0) (S.add b.half_t2_0 a.half_t2_0) = true ∧
        S.eq (S.add a.half_t2_1 b.half_t2_1) (S.add b.half_t2_1 a.half_t2_1) = true) := by
  simp [fallback.op_eq, fallback.op_add, fallback.ctor_half_half]

theorem mul_comm_eq_iff_lanes {H : Type} (S : HalfScalar H) (a b : fallback.half2_t H) :
    fallback.op_eq S (fallback.op_mul S a b) (fallback.op_mul S b a) = true ↔
      (S.eq (S.mul a.half_t2_0 b.half_t2_0) (S.mul b.half_t2_0 a.half_t2_0) = true ∧
        S.eq (S.mul a.half_t2_1 b.half_t2_1) (S.mul b.half_t2_1 a.half_t2_1) = true) := by
  simp [fallback.op_eq, fallback.op_mul, fallback.ctor_half_half]

/-! ## Compound assignment with an operand of another type -/

theorem implicit_conversion_int_iff {α : Type} (decls : List CtorDecl) (from_int : Int → α)
    (s : Store α) (n : Int) :
    (Operand.int n).implicit_conversion decls from_int s =
      if decls.any (fun c => c.converts_from .int) then some (from_int n) else none :=
  rfl

theorem implicit_conversion_int_nonexplicit {α : Type} (from_int : Int → α) (s : Store α)
    (n : Int) :
    (Operand.int n).implicit_conversion [{ params := [.int], is_explicit := false }]
      from_int s = some (from_int n) :=
  rfl

theorem fallback_no_converting_ctor (t : ParamType) :
    fallback.ctor_decls.any (fun c => c.converts_from t) = false := by
  cases t <;> decide

theorem cuda_no_converting_ctor (t : ParamType) :
    cuda.ctor_decls.any (fun c => c.converts_from t) = false := by
  cases t <;> decide

/-- C11, as amended. The compound assignments accept an operand of any type
that converts implicitly to `half2_t`: a `half2_t` itself, object or
temporary, or a class with a conversion to it.  For such an operand `a OP= b`
leaves `a` equal to `a OP b'`, where `b'` is the converted operand, computed
by the corresponding free operator and stored through copy-assign.  An `int`
is not such a type, because `half2_t(int)` is declared `explicit`: `a OP= n`
is ill-formed.  With the broadcast written out, `a OP= half2_t(n)` leaves `a`
equal to `a OP half2_t(n)`.  This holds in both bodies. -/
theorem op_bin_assign_T_operand {H N T : Type} (S : HalfScalar H) (C : CudaIntrinsics N T)
    (op : BinOp) (n : Int)
    (s : Store (fallback.half2_t H)) (a : Addr) (b : ConstRef (fallback.half2_t H))
    (w : fallback.half2_t H)
    (c : Store (cuda.half2_t N)) (u : Addr) (v : ConstRef (cuda.half2_t N))
    (z : cuda.half2_t N) :
    (fallback.op_bin_assign_T S op s a (.pair b) =
        some (fallback.op_assign s a (.tmp (fallback.op_bin S op (s a) (b.get s)))) ∧
      (fallback.op_assign s a (.tmp (fallback.op_bin S op (s a) (b.get s)))).1 a =
        fallback.op_bin S op (s a) (b.get s) ∧
      (∃ r, fallback.op_bin_assign_T S op s a (.converted w) = some r ∧
        r.1 a = fallback.op_bin S op (s a) w) ∧
      (∃ r, fallback.op_bin_assign_T S op s a (.pair (.tmp (fallback.ctor_int S n))) = some r ∧
        r.1 a = fallback.op_bin S op (s a) (fallback.ctor_int S n)) ∧
      fallback.op_bin_assign_T S op s a (.int n) = none) ∧
    (cuda.op_bin_assign_T C op c u (.pair v) =
        some (cuda.op_assign c u (.tmp (cuda.op_bin C op (c u) (v.get c)))) ∧
      (cuda.op_assign c u (.tmp (cuda.op_bin C op (c u) (v.get c)))).1 u =
        cuda.op_bin C op (c u) (v.get c) ∧
      (∃ r, cuda.op_bin_assign_T C op c u (.converted z) = some r ∧
        r.1 u = cuda.op_bin C op (c u) z) ∧
      (∃ r, cuda.op_bin_assign_T C op c u (.pair (.tmp (cuda.ctor_int C n))) = some r ∧
        r.1 u = cuda.op_bin C op (c u) (cuda.ctor_int C n)) ∧
      cuda.op_bin_assign_T C op c u (.int n) = none) := by
  refine ⟨⟨rfl, ?_, ⟨_, rfl, ?_⟩, ⟨_, rfl, ?_⟩, rfl⟩, ⟨rfl, ?_, ⟨_, rfl, ?_⟩, ⟨_, rfl, ?_⟩, rfl⟩⟩
  · rw [fallback_op_assign_store, if_pos rfl]; rfl
  · rw [fallback_op_assign_store, if_pos rfl]; rfl
  · rw [fallback_op_assign_store, if_pos rfl]; rfl
  · rw [cuda_op_assign_store, if_pos rfl]; rfl
  · rw [cuda_op_assign_store, if_pos rfl]; rfl
  · rw [cuda_op_assign_store, if_pos rfl]; rfl

/-- C11, counterexample. With the receiver at object 0 of the demonstration
store and the `int` operand 2, `a += 2` is ill-formed in both bodies, because
no constructor declared by the class converts from `int`: there is no
outcome at all, hence none in which `a` equals `a + half2_t(2)`. -/
theorem op_bin_assign_T_int_rejected :
    (¬ ∃ r, fallback.op_bin_assign_T intScalar .add demoStore 0 (.int 2) = some r ∧
        r.1 0 = fallback.op_add intScalar (demoStore 0) (fallback.ctor_int intScalar 2)) ∧
    (¬ ∃ r, cuda.op_bin_assign_T intIntrinsics .add demoStoreCuda 0 (.int 2) = some r ∧
        r.1 0 = cuda.op_add intIntrinsics (demoStoreCuda 0) (cuda.ctor_int intIntrinsics 2)) := by
  constructor
  · rintro ⟨r, hr, -⟩
    exact Option.noConfusion hr
  · rintro ⟨r, hr, -⟩
    exact Option.noConfusion hr

/-! ## Constructors and unary plus -/

/-- C12. Fallback body: for every two scalar values `x` and `y`, the pair
`half2_t(x, y)` has lane 0 equal to `x` and lane 1 equal to `y`. -/
theorem ctor_half_half_lanes {H : Type} (x y : H) :
    (fallback.ctor_half_half x y).half_t2_0 = x ∧
    (fallback.ctor_half_half x y).half_t2_1 = y :=
  ⟨rfl, rfl⟩

/-- C13. For every pair `a`, `+a` is a pair with exactly the lanes of `a`, and
evaluating it writes no object: `a` is left unchanged.  In the accelerated
body the same holds for the native value. -/
theorem op_pos_identity {H N : Type} (s : Store (fallback.half2_t H)) (a : Addr)
    (c : Store (cuda.half2_t N)) (u : Addr) :
    ((fallback.op_pos s a).2.half_t2_0 = (s a).half_t2_0 ∧
      (fallback.op_pos s a).2.half_t2_1 = (s a).half_t2_1 ∧
      (fallback.op_pos s a).1 = s) ∧
    ((cuda.op_pos c u).2.half2_ = (c u).half2_ ∧
      (cuda.op_pos c u).1 = c) :=
  ⟨⟨rfl, rfl, rfl⟩, ⟨rfl, rfl⟩⟩

/-! ## Integer broadcast under the operators

The lanes of `half2_t(m) OP half2_t(n)` are the scalar `OP` of the two
conversions.  Whether that equals the conversion of the integer result is a
property of the arithmetic of `half_t`. -/

theorem ctor_int_op_bin_lanes {H : Type} (S : HalfScalar H) (op : BinOp) (m n : Int) :
    fallback.op_bin S op (fallback.ctor_int S m) (fallback.ctor_int S n) =
      fallback.ctor_half_half (S.binop op (S.ofInt m) (S.ofInt n))
        (S.binop op (S.ofInt m) (S.ofInt n)) := by
  cases op <;> rfl

/-! ## Totality -/

theorem fallback_trap_op_bin_isSome_iff {H : Type} (T : TrappingScalar H) (op : BinOp)
    (a b : fallback.half2_t H) :
    (fallback.trap.op_bin T op a b).isSome = true ↔
      ((T.binop op a.half_t2_0 b.half_t2_0).isSome = true ∧
        (T.binop op a.half_t2_1 b.half_t2_1).isSome = true) := by
  cases op <;>
    simp only [fallback.trap.op_bin, fallback.trap.op_add, fallback.trap.op_sub,
      fallback.trap.op_mul, fallback.trap.op_div, fallback.trap.ctor_half_half,
      TrappingScalar.binop, bind, Option.bind] <;>
    split <;> simp_all <;> split <;> simp_all

theorem fallback_trap_agrees {H : Type} (S : HalfScalar H) (op : BinOp) (n : Int)
    (p q : fallback.half2_t H) (s : Store (fallback.half2_t H)) (a : Addr)
    (b : ConstRef (fallback.half2_t H)) :
    fallback.trap.ctor_int S.trapping n = some (fallback.ctor_int S n) ∧
    fallback.trap.op_bin S.trapping op p q = some (fallback.op_bin S op p q) ∧
    fallback.trap.op_eq S.trapping p q = some (fallback.op_eq S p q) ∧
    fallback.trap.op_neg S.trapping s a = some (fallback.op_neg S s a) ∧
    fallback.trap.op_bin_assign S.trapping op s a b = some (fallback.op_bin_assign S op s a b) := by
  refine ⟨rfl, ?_, ?_, rfl, ?_⟩
  · cases op <;> rfl
  · simp only [fallback.trap.op_eq, fallback.op_eq, HalfScalar.trapping, bind, Option.bind]
    cases S.eq p.half_t2_0 q.half_t2_0 <;> simp
  · cases op <;> rfl

theorem cuda_trap_agrees {N T : Type} (C : CudaIntrinsics N T) (op : BinOp) (n : Int)
    (f g : cuda.half2_t N) (c : Store (cuda.half2_t N)) (u : Addr)
    (v : ConstRef (cuda.half2_t N)) :
    cuda.trap.ctor_int C.trapping n = some (cuda.ctor_int C n) ∧
    cuda.trap.op_bin C.trapping op f g = some (cuda.op_bin C op f g) ∧
    cuda.trap.op_eq C.trapping f g = some (cuda.op_eq C f g) ∧
    cuda.trap.op_neg C.trapping c u = some (cuda.op_neg C c u) ∧
    cuda.trap.op_bin_assign C.trapping op c u v = some (cuda.op_bin_assign C op c u v) := by
  refine ⟨rfl, ?_, rfl, rfl, ?_⟩
  · cases op <;> rfl
  · cases op <;> rfl

theorem fallback_trap_op_bin_total {H : Type} (T : TrappingScalar H) (hT : T.Total)
    (op : BinOp) (a b : fallback.half2_t H) :
    (fallback.trap.op_bin T op a b).isSome = true := by
  rw [fallback_trap_op_bin_isSome_iff]
  cases op
  · exact ⟨hT.add _ _, hT.add _ _⟩
  · exact ⟨hT.sub _ _, hT.sub _ _⟩
  · exact ⟨hT.mul _ _, hT.mul _ _⟩
  · exact ⟨hT.div _ _, hT.div _ _⟩

theorem cuda_trap_op_bin_total {N S : Type} (C : TrappingIntrinsics N S) (hC : C.Total)
    (op : BinOp) (a b : cuda.half2_t N) :
    (cuda.trap.op_bin C op a b).isSome = true := by
  cases op
  · obtain ⟨v, hv⟩ := Option.isSome_iff_exists.mp (hC.hadd2 a.half2_ b.half2_)
    simp [cuda.trap.op_bin, cuda.trap.op_add, cuda.trap.ctor_native, hv]
  · obtain ⟨v, hv⟩ := Option.isSome_iff_exists.mp (hC.hsub2 a.half2_ b.half2_)
    simp [cuda.trap.op_bin, cuda.trap.op_sub, cuda.trap.ctor_native, hv]
  · obtain ⟨v, hv⟩ := Option.isSome_iff_exists.mp (hC.hmul2 a.half2_ b.half2_)
    simp [cuda.trap.op_bin, cuda.trap.op_mul, cuda.trap.ctor_native, hv]
  · obtain ⟨v, hv⟩ := Option.isSome_iff_exists.mp (hC.h2div a.half2_ b.half2_)
    simp [cuda.trap.op_bin, cuda.trap.op_div, cuda.trap.ctor_native, hv]

theorem trapping_total {H : Type} (S : HalfScalar H) : S.trapping.Total :=
  ⟨fun _ => rfl, fun _ => rfl, fun _ _ => rfl, fun _ _ => rfl, fun _ _ => rfl,
    fun _ _ => rfl, fun _ _ => rfl⟩

theorem trapping_intrinsics_total {N T : Type} (C : CudaIntrinsics N T) : C.trapping.Total :=
  ⟨fun _ => rfl, fun _ => rfl, fun _ => rfl, fun _ _ => rfl, fun _ _ => rfl, fun _ _ => rfl,
    fun _ _ => rfl, fun _ _ => rfl⟩

/-- C15. Every operation of the header returns a result on every input and
has no failing branch of its own, in both bodies: embedded over primitives
whose calls may fail, each of the constructors, unary plus and minus,
copy-assign, the four compound assignments, the four binary operators and
equality returns whenever the primitives of `half_t` (of cuda_fp16.h in the
accelerated body) return.  Division does not test its divisor: it returns
also when lane 0, lane 1 or both lanes of the divisor are the conversion
of 0. -/
theorem operations_total {H N S : Type} (T : TrappingScalar H) (hT : T.Total)
    (C : TrappingIntrinsics N S) (hC : C.Total)
    (op : BinOp) (n : Int) (x y : H) (w : N)
    (p q : fallback.half2_t H) (s : Store (fallback.half2_t H)) (a : Addr)
    (b : ConstRef (fallback.half2_t H))
    (f g : cuda.half2_t N) (c : Store (cuda.half2_t N)) (u : Addr)
    (v : ConstRef (cuda.half2_t N)) :
    ((fallback.trap.ctor_default p).isSome = true ∧
      (fallback.trap.ctor_half_half x y).isSome = true ∧
      (fallback.trap.ctor_int T n).isSome = true ∧
      (fallback.trap.op_pos s a).isSome = true ∧
      (fallback.trap.op_neg T s a).isSome = true ∧
      (fallback.trap.op_assign s a b).isSome = true ∧
      (fallback.trap.op_bin_assign T op s a b).isSome = true ∧
      (fallback.trap.op_bin T op p q).isSome = true ∧
      (fallback.trap.op_eq T p q).isSome = true ∧
      (∀ z : H, T.ofInt 0 = some z →
        (fallback.trap.op_div T p { half_t2_0 := z, half_t2_1 := y }).isSome = true ∧
        (fallback.trap.op_div T p { half_t2_0 := x, half_t2_1 := z }).isSome = true ∧
        (fallback.trap.op_div T p { half_t2_0 := z, half_t2_1 := z }).isSome = true)) ∧
    ((cuda.trap.ctor_default f).isSome = true ∧
      (cuda.trap.ctor_native w).isSome = true ∧
      (cuda.trap.ctor_int C n).isSome = true ∧
      (cuda.trap.op_pos c u).isSome = true ∧
      (cuda.trap.op_neg C c u).isSome = true ∧
      (cuda.trap.op_assign c u v).isSome = true ∧
      (cuda.trap.op_bin_assign C op c u v).isSome = true ∧
      (cuda.trap.op_bin C op f g).isSome = true ∧
      (cuda.trap.op_eq C f g).isSome = true ∧
      (∀ z : cuda.half2_t N, cuda.trap.ctor_int C 0 = some z →
        (cuda.trap.op_div C f z).isSome = true)) := by
  refine ⟨⟨rfl, rfl, ?_, rfl, ?_, rfl, ?_, fallback_trap_op_bin_total T hT op p q, ?_, ?_⟩,
    ⟨rfl, rfl, ?_, rfl, ?_, rfl, ?_, cuda_trap_op_bin_total C hC op f g, hC.hbeq2 _ _, ?_⟩⟩
  · obtain ⟨z, hz⟩ := Option.isSome_iff_exists.mp (hT.ofInt n)
    simp [fallback.trap.ctor_int, fallback.trap.ctor_half_half, hz]
  · obtain ⟨z0, h0⟩ := Option.isSome_iff_exists.mp (hT.neg (s a).half_t2_0)
    obtain ⟨z1, h1⟩ := Option.isSome_iff_exists.mp (hT.neg (s a).half_t2_1)
    simp [fallback.trap.op_neg, fallback.trap.ctor_half_half, h0, h1]
  · obtain ⟨t, ht⟩ := Option.isSome_iff_exists.mp
      (fallback_trap_op_bin_total T hT op (s a) (b.get s))
    simp [fallback.trap.op_bin_assign, fallback.trap.MSHADOW_HALF2_ASSIGNOP,
      fallback.trap.op_assign, ht]
  · obtain ⟨e0, h0⟩ := Option.isSome_iff_exists.mp (hT.eq p.half_t2_0 q.half_t2_0)
    have h1 := hT.eq p.half_t2_1 q.half_t2_1
    cases e0 <;> simp [fallback.trap.op_eq, h0, h1]
  · intro z _
    exact ⟨fallback_trap_op_bin_total T hT .div p _, fallback_trap_op_bin_total T hT .div p _,
      fallback_trap_op_bin_total T hT .div p _⟩
  · obtain ⟨h, hh⟩ := Option.isSome_iff_exists.mp (hC.int2half_rz n)
    obtain ⟨z, hz⟩ := Option.isSome_iff_exists.mp (hC.half2half2 h)
    simp [cuda.trap.ctor_int, cuda.trap.ctor_native, hh, hz]
  · obtain ⟨z, hz⟩ := Option.isSome_iff_exists.mp (hC.hneg2 (c u).half2_)
    simp [cuda.trap.op_neg, cuda.trap.ctor_native, hz]
  · obtain ⟨t, ht⟩ := Option.isSome_iff_exists.mp
      (cuda_trap_op_bin_total C hC op (c u) (v.get c))
    simp [cuda.trap.op_bin_assign, cuda.trap.MSHADOW_HALF2_ASSIGNOP, cuda.trap.op_assign, ht]
  · intro z _
    exact cuda_trap_op_bin_total C hC .div f z

/-- Witness of C15 over the integers, where every primitive returns: the
quotients of `(6, 5)` by `(0, 3)`, by `(3, 0)` and by `(0, 0)` all return, as
does the quotient by `half2_t(0)` in the accelerated body. -/
theorem operations_total_witness :
    intScalar.trapping.Total ∧ intIntrinsics.trapping.Total ∧
    intScalar.trapping.ofInt 0 = some 0 ∧
    ((fallback.trap.op_div intScalar.trapping ⟨6, 5⟩ ⟨0, 3⟩).isSome = true ∧
      (fallback.trap.op_div intScalar.trapping ⟨6, 5⟩ ⟨3, 0⟩).isSome = true ∧
      (fallback.trap.op_div intScalar.trapping ⟨6, 5⟩ ⟨0, 0⟩).isSome = true) ∧
    cuda.trap.ctor_int intIntrinsics.trapping 0 = some ⟨(0, 0)⟩ ∧
    (cuda.trap.op_div intIntrinsics.trapping ⟨(6, 5)⟩ ⟨(0, 0)⟩).isSome = true :=
  ⟨trapping_total intScalar, trapping_intrinsics_total intIntrinsics, rfl,
    (operations_total intScalar.trapping (trapping_total intScalar) intIntrinsics.trapping
      (trapping_intrinsics_total intIntrinsics) .div 0 3 3 (0, 0) ⟨6, 5⟩ ⟨1, 1⟩ demoStore 0
      (.obj 1) ⟨(6, 5)⟩ ⟨(1, 1)⟩ demoStoreCuda 0 (.obj 1)).1.2.2.2.2.2.2.2.2.2 0 rfl,
    rfl,
    (operations_total intScalar.trapping (trapping_total intScalar) intIntrinsics.trapping
      (trapping_intrinsics_total intIntrinsics) .div 0 3 3 (0, 0) ⟨6, 5⟩ ⟨1, 1⟩ demoStore 0
      (.obj 1) ⟨(6, 5)⟩ ⟨(1, 1)⟩ demoStoreCuda 0 (.obj 1)).2.2.2.2.2.2.2.2.2.2 ⟨(0, 0)⟩ rfl⟩

/-! ## Capability gate -/

/-- C16. `MSHADOW_CUDA_HALF2` is 1 if and only if `__CUDACC__` is defined,
`__CUDA_ARCH__ >= 530`, `MSHADOW_USE_CUDA` is non-zero and
`CUDA_VERSION >= 7050` hold together (a macro that is not defined counts
as 0); in every other case it is 0.  The accelerated body is compiled exactly
when it is 1 and the fallback body exactly when it is 0. -/
theorem MSHADOW_CUDA_HALF2_iff (e : MacroEnv) :
    (MSHADOW_CUDA_HALF2 e = 1 ↔
      (e.__CUDACC__.isSome = true ∧ 530 ≤ pp_value e.__CUDA_ARCH__ ∧
        pp_value e.MSHADOW_USE_CUDA ≠ 0 ∧ 7050 ≤ pp_value e.CUDA_VERSION)) ∧
    (MSHADOW_CUDA_HALF2 e = 0 ↔
      ¬ (e.__CUDACC__.isSome = true ∧ 530 ≤ pp_value e.__CUDA_ARCH__ ∧
        pp_value e.MSHADOW_USE_CUDA ≠ 0 ∧ 7050 ≤ pp_value e.CUDA_VERSION)) ∧
    (selected_body e = .accelerated ↔ MSHADOW_CUDA_HALF2 e = 1) ∧
    (selected_body e = .fallback ↔ MSHADOW_CUDA_HALF2 e = 0) := by
  have hb : (pp_defined e.__CUDACC__ && decide (pp_value e.__CUDA_ARCH__ ≥ 530) &&
        decide (pp_value e.MSHADOW_USE_CUDA ≠ 0) &&
        decide (pp_value e.CUDA_VERSION ≥ 7050)) = true ↔
      (e.__CUDACC__.isSome = true ∧ 530 ≤ pp_value e.__CUDA_ARCH__ ∧
        pp_value e.MSHADOW_USE_CUDA ≠ 0 ∧ 7050 ≤ pp_value e.CUDA_VERSION) := by
    simp only [pp_defined, Bool.and_eq_true, decide_eq_true_eq, ge_iff_le]
    constructor
    · rintro ⟨⟨⟨h1, h2⟩, h3⟩, h4⟩
      exact ⟨h1, h2, h3, h4⟩
    · rintro ⟨h1, h2, h3, h4⟩
      exact ⟨⟨⟨h1, h2⟩, h3⟩, h4⟩
  unfold selected_body MSHADOW_CUDA_HALF2
  rw [← hb]
  cases (pp_defined e.__CUDACC__ && decide (pp_value e.__CUDA_ARCH__ ≥ 530) &&
        decide (pp_value e.MSHADOW_USE_CUDA ≠ 0) &&
        decide (pp_value e.CUDA_VERSION ≥ 7050)) <;> simp

theorem gate_examples :
    MSHADOW_CUDA_HALF2 demoEnvDevice = 1 ∧ selected_body demoEnvDevice = .accelerated ∧
    MSHADOW_CUDA_HALF2 demoEnvHost = 0 ∧ selected_body demoEnvHost = .fallback ∧
    MSHADOW_CUDA_HALF2 { demoEnvDevice with __CUDA_ARCH__ := some 520 } = 0 ∧
    MSHADOW_CUDA_HALF2 { demoEnvDevice with __CUDA_ARCH__ := none } = 0 ∧
    MSHADOW_CUDA_HALF2 { demoEnvDevice with MSHADOW_USE_CUDA := some 0 } = 0 ∧
    MSHADOW_CUDA_HALF2 { demoEnvDevice with CUDA_VERSION := some 7000 } = 0 ∧
    MSHADOW_CUDA_HALF2 { demoEnvDevice with __CUDACC__ := none } = 0 := by
  decide

/-! ## Aliasing and the value of a compound assignment -/

/-- C17. For every pair `a` and each `OP` of `+ - * /`, after `a OP= a` the
receiver holds `(old a) OP (old a)` lane by lane: both operands of the free
operator are read from the value `a` had before it is written.  In the
accelerated body the receiver holds the intrinsic applied to the old native
value twice. -/
theorem self_compound_assign {H N T : Type} (S : HalfScalar H) (C : CudaIntrinsics N T)
    (op : BinOp) (s : Store (fallback.half2_t H)) (a : Addr)
    (c : Store (cuda.half2_t N)) (u : Addr) :
    (((fallback.op_bin_assign S op s a (.obj a)).1 a).half_t2_0 =
        S.binop op (s a).half_t2_0 (s a).half_t2_0 ∧
      ((fallback.op_bin_assign S op s a (.obj a)).1 a).half_t2_1 =
        S.binop op (s a).half_t2_1 (s a).half_t2_1) ∧
    (cuda.op_bin_assign C op c u (.obj u)).1 u = cuda.op_bin C op (c u) (c u) := by
  rw [fallback_op_bin_assign_unfold, cuda_op_bin_assign_unfold,
    fallback_op_assign_store, cuda_op_assign_store, if_pos rfl, if_pos rfl]
  refine ⟨?_, rfl⟩
  cases op <;> exact ⟨rfl, rfl⟩

/-- C18. For every pair `a` and `b` and each `OP` of `+ - * /`, the value of
the expression `a OP= b` has the lanes that the receiver `a` holds after the
update, and these are the lanes of `(old a) OP b`, although copy-assign
returns its source and not its receiver.  This holds in both bodies. -/
theorem compound_assign_value {H N T : Type} (S : HalfScalar H) (C : CudaIntrinsics N T)
    (op : BinOp)
    (s : Store (fallback.half2_t H)) (a : Addr) (b : ConstRef (fallback.half2_t H))
    (c : Store (cuda.half2_t N)) (u : Addr) (v : ConstRef (cuda.half2_t N)) :
    ((fallback.op_bin_assign S op s a b).2 = (fallback.op_bin_assign S op s a b).1 a ∧
      (fallback.op_bin_assign S op s a b).2.half_t2_0 =
        S.binop op (s a).half_t2_0 (b.get s).half_t2_0 ∧
      (fallback.op_bin_assign S op s a b).2.half_t2_1 =
        S.binop op (s a).half_t2_1 (b.get s).half_t2_1) ∧
    ((cuda.op_bin_assign C op c u v).2 = (cuda.op_bin_assign C op c u v).1 u ∧
      (cuda.op_bin_assign C op c u v).2 = cuda.op_bin C op (c u) (v.get c)) := by
  rw [fallback_op_bin_assign_unfold, cuda_op_bin_assign_unfold,
    fallback_op_assign_store, cuda_op_assign_store, if_pos rfl, if_pos rfl,
    fallback_op_assign_result, cuda_op_assign_result]
  refine ⟨⟨rfl, ?_⟩, ⟨rfl, rfl⟩⟩
  cases op <;> exact ⟨rfl, rfl⟩

/-! ## Lane independence -/

/-- C19. Fallback body: for each `OP` of `+ - * /` and for unary minus, lane 0
of the result is determined by lane 0 of the operands and lane 1 of the
result by lane 1 of the operands: two runs whose operands agree on a lane
give results that agree on that lane, whatever the other lane holds. -/
theorem lane_independence {H : Type} (S : HalfScalar H) (op : BinOp)
    (a b a2 b2 : fallback.half2_t H) (s s2 : Store (fallback.half2_t H)) (p p2 : Addr) :
    (a.half_t2_0 = a2.half_t2_0 → b.half_t2_0 = b2.half_t2_0 →
      (fallback.op_bin S op a b).half_t2_0 = (fallback.op_bin S op a2 b2).half_t2_0) ∧
    (a.half_t2_1 = a2.half_t2_1 → b.half_t2_1 = b2.half_t2_1 →
      (fallback.op_bin S op a b).half_t2_1 = (fallback.op_bin S op a2 b2).half_t2_1) ∧
    ((s p).half_t2_0 = (s2 p2).half_t2_0 →
      (fallback.op_neg S s p).2.half_t2_0 = (fallback.op_neg S s2 p2).2.half_t2_0) ∧
    ((s p).half_t2_1 = (s2 p2).half_t2_1 →
      (fallback.op_neg S s p).2.half_t2_1 = (fallback.op_neg S s2 p2).2.half_t2_1) := by
  refine ⟨?_, ?_, ?_, ?_⟩
  · intro ha hb
    cases op <;>
      simp [fallback.op_bin, fallback.op_add, fallback.op_sub, fallback.op_mul,
        fallback.op_div, fallback.ctor_half_half, ha, hb]
  · intro ha hb
    cases op <;>
      simp [fallback.op_bin, fallback.op_add, fallback.op_sub, fallback.op_mul,
        fallback.op_div, fallback.ctor_half_half, ha, hb]
  · intro h
    simp [fallback.op_neg, fallback.ctor_half_half, h]
  · intro h
    simp [fallback.op_neg, fallback.ctor_half_half, h]

/-- Witness of C19 over the integers.  Lane 0: `(6, 5) / (3, 7)` against
`(6, 99) / (3, 0)`, and the negation of object 0 of the demonstration store
against that of a store where only lane 1 of the object differs.  Lane 1:
the same with the lanes exchanged. -/
theorem lane_independence_witness :
    (((⟨6, 5⟩ : fallback.half2_t Int).half_t2_0 = (⟨6, 99⟩ : fallback.half2_t Int).half_t2_0 ∧
        (⟨3, 7⟩ : fallback.half2_t Int).half_t2_0 = (⟨3, 0⟩ : fallback.half2_t Int).half_t2_0 ∧
        (fallback.op_bin intScalar .div ⟨6, 5⟩ ⟨3, 7⟩).half_t2_0 =
          (fallback.op_bin intScalar .div ⟨6, 99⟩ ⟨3, 0⟩).half_t2_0) ∧
      ((demoStore 0).half_t2_0 = (demoStore.write 0 ⟨0, 77⟩ 0).half_t2_0 ∧
        (fallback.op_neg intScalar demoStore 0).2.half_t2_0 =
          (fallback.op_neg intScalar (demoStore.write 0 ⟨0, 77⟩) 0).2.half_t2_0)) ∧
    (((⟨5, 6⟩ : fallback.half2_t Int).half_t2_1 = (⟨99, 6⟩ : fallback.half2_t Int).half_t2_1 ∧
        (⟨7, 3⟩ : fallback.half2_t Int).half_t2_1 = (⟨0, 3⟩ : fallback.half2_t Int).half_t2_1 ∧
        (fallback.op_bin intScalar .div ⟨5, 6⟩ ⟨7, 3⟩).half_t2_1 =
          (fallback.op_bin intScalar .div ⟨99, 6⟩ ⟨0, 3⟩).half_t2_1) ∧
      ((demoStore 0).half_t2_1 = (demoStore.write 0 ⟨77, 10⟩ 0).half_t2_1 ∧
        (fallback.op_neg intScalar demoStore 0).2.half_t2_1 =
          (fallback.op_neg intScalar (demoStore.write 0 ⟨77, 10⟩) 0).2.half_t2_1)) :=
  ⟨⟨⟨rfl, rfl,
        (lane_independence intScalar .div ⟨6, 5⟩ ⟨3, 7⟩ ⟨6, 99⟩ ⟨3, 0⟩ demoStore
          (demoStore.write 0 ⟨0, 77⟩) 0 0).1 rfl rfl⟩,
      ⟨by decide,
        (lane_independence intScalar .div ⟨6, 5⟩ ⟨3, 7⟩ ⟨6, 99⟩ ⟨3, 0⟩ demoStore
          (demoStore.write 0 ⟨0, 77⟩) 0 0).2.2.1 (by decide)⟩⟩,
    ⟨⟨rfl, rfl,
        (lane_independence intScalar .div ⟨5, 6⟩ ⟨7, 3⟩ ⟨99, 6⟩ ⟨0, 3⟩ demoStore
          (demoStore.write 0 ⟨77, 10⟩) 0 0).2.1 rfl rfl⟩,
      ⟨by decide,
        (lane_independence intScalar .div ⟨5, 6⟩ ⟨7, 3⟩ ⟨99, 6⟩ ⟨0, 3⟩ demoStore
          (demoStore.write 0 ⟨77, 10⟩) 0 0).2.2.2 (by decide)⟩⟩⟩

end half
end mshadow
